import Mathlib

/-!
# Verification of the market-data normalization core of the Agent repository

This file gives a shallow embedding, in Lean 4, of the time-series
normalization, resampling and indicator components of the repository:

* `thx.py` (legacy module, namespace `Thx` below): `extract_json_from_js`,
  `process_stock_data_all`, `process_stock_data_last`,
  `parse_trading_hours`, `resample_with_trading_hours`;
* `src/thx.py` (hardened module, namespace `SrcThx`): the hardened
  variants of the same functions;
* `src/thx_helper.py` / `src/thx/thx_helper.py` (namespace `ThxHelper`):
  the helper variants used by the `thx_tool` application path;
* `indicators.py` (namespace `Indicators`): `calculate_ma`,
  `calculate_macd`, `calculate_rsi`, `calculate_kdj`,
  `add_technical_indicators`.

Modelling conventions:

* Python `str` values are modelled as `List Char` (all payloads involved
  are ASCII, where Python string indexing/slicing coincides with list
  indexing/slicing).
* Python `float` values are modelled as `ℚ`; every numeric literal in the
  data paths under study is decimal, and all claim-relevant comparisons
  are far below any floating-point granularity.
* Fallible Python code (uncaught exceptions) is modelled with
  `Except PyErr`; a caught-and-logged exception follows the source's
  handler (`continue`, `return []`, `return None`, …).
* `pandas` Series/column values are modelled as `List (Option ℚ)` where
  `none` stands for `NaN`; vectorized operations are modelled index-wise.
* Timestamps are modelled by the record `DT` (year, month, day, hour,
  minute) — the result of `pd.to_datetime` — with absolute minute counts
  derived through a proleptic Gregorian day number, so that the
  minute-bucket arithmetic of `pandas.resample` is exact.
-/

set_option autoImplicit false
set_option maxRecDepth 8000

/-- Errors raised by the embedded Python code.  `valueError` covers
`ValueError` (including the `ConfigurationError` role of the spec's error
taxonomy) and `indexError` covers `IndexError`. -/
inductive PyErr where
  | valueError : PyErr
  | indexError : PyErr
deriving DecidableEq

/-- Python `str.split(sep)` for a one-character separator: always returns
at least one (possibly empty) piece; `"a,,bc"` gives `["a", "", "bc"]`. -/
def splitOnChar (sep : Char) : List Char → List (List Char)
  | [] => [[]]
  | x :: xs =>
    match splitOnChar sep xs with
    | [] => [[]]      -- unreachable: the result is always non-empty
    | y :: ys => if x = sep then [] :: y :: ys else (x :: y) :: ys

/-- Python `str.strip()` restricted to the space character (the only
whitespace occurring in the payloads under study). -/
def pyStrip (s : List Char) : List Char :=
  (s.dropWhile (· = ' ')).reverse.dropWhile (· = ' ') |>.reverse

/-- Value of a decimal digit. -/
def digitVal (c : Char) : Option ℕ :=
  if '0' ≤ c ∧ c ≤ '9' then some (c.toNat - '0'.toNat) else none

/-- Parse a non-empty all-digit string as a natural number (the use made
of Python `int` on the `HHMM` slices). -/
def parseNat : List Char → Option ℕ
  | [] => none
  | s =>
    s.foldl (fun acc c =>
      match acc, digitVal c with
      | some n, some d => some (n * 10 + d)
      | _, _ => none) (some 0)

/-- Parse the digits-and-dot body of a decimal literal: `digits`,
`digits.digits`, `digits.` or `.digits` — what Python `float` accepts for
the payload tokens under study (exponents, `inf` and `nan` do not occur
in these data paths and are not modelled). -/
def parseDecBody (s : List Char) : Option ℚ :=
  match splitOnChar '.' s with
  | [ip] =>
    match parseNat ip with
    | some n => some (n : ℚ)
    | none => none
  | [ip, fp] =>
    if ip = [] ∧ fp = [] then none
    else
      match parseNat (ip ++ fp), fp.length with
      | some n, k => some ((n : ℚ) / ((10 : ℚ) ^ k))
      | none, _ => none
  | _ => none

/-- Python `float(token)`: optional surrounding spaces, an optional sign,
then a decimal body. -/
def parseFloat (s : List Char) : Option ℚ :=
  match pyStrip s with
  | '-' :: rest => (parseDecBody rest).map (fun q => -q)
  | '+' :: rest => parseDecBody rest
  | rest => parseDecBody rest

/-- Round-half-to-even to an integer (the rounding mode of
`numpy`/`pandas` `.round`). -/
def roundHalfEven (x : ℚ) : ℤ :=
  let f := ⌊x⌋
  let r := x - (f : ℚ)
  if r < 1/2 then f
  else if 1/2 < r then f + 1
  else if f % 2 = 0 then f else f + 1

/-- `pandas` `.round(2)`. -/
def round2 (x : ℚ) : ℚ := (roundHalfEven (x * 100) : ℚ) / 100

/-- Index of the first occurrence of a character, if any. -/
def firstIdx (c : Char) : List Char → Option ℕ
  | [] => none
  | x :: xs => if x = c then some 0 else (firstIdx c xs).map (· + 1)

/-- Index of the last occurrence of a character, if any. -/
def lastIdx (c : Char) : List Char → Option ℕ
  | [] => none
  | x :: xs =>
    match lastIdx c xs with
    | some k => some (k + 1)
    | none => if x = c then some 0 else none

/-- Python `str.find`: index of the first occurrence or `-1`. -/
def pyFind (c : Char) (s : List Char) : ℤ :=
  match firstIdx c s with
  | some k => (k : ℤ)
  | none => -1

/-- Python `str.rfind`: index of the last occurrence or `-1`. -/
def pyRFind (c : Char) (s : List Char) : ℤ :=
  match lastIdx c s with
  | some k => (k : ℤ)
  | none => -1

/-- Python slice `s[a:b]` for the non-negative indices arising in the
decoders (clamping semantics). -/
def pySlice (s : List Char) (a b : ℤ) : List Char :=
  (s.take b.toNat).drop a.toNat

/-- A JSON value, as produced by `json.loads`.  The decoders under study
treat the parsed value opaquely, so the embedding passes the JSON parser
itself (the external `json` library) as a function argument. -/
inductive Json where
  | null : Json
  | bool (b : Bool) : Json
  | num (q : ℚ) : Json
  | str (s : List Char) : Json
  | arr (elems : List Json) : Json
  | obj (fields : List (List Char × Json)) : Json

/-- A timestamp as produced by `pd.to_datetime` on the payload formats in
use: year, month, day, hour, minute. -/
structure DT where
  year : ℕ
  month : ℕ
  day : ℕ
  hour : ℕ
  minute : ℕ
deriving DecidableEq

/-- Gregorian leap-year test. -/
def isLeap (y : ℕ) : Bool :=
  decide ((y % 4 = 0 ∧ ¬ y % 100 = 0) ∨ y % 400 = 0)

/-- Days before the first of month `m` (1-based) in a year of the given
leapness. -/
def daysBeforeMonth (leap : Bool) (m : ℕ) : ℕ :=
  let base := [0, 0, 31, 59, 90, 120, 151, 181, 212, 243, 273, 304, 334].getD m 0
  if leap ∧ 3 ≤ m then base + 1 else base

/-- Proleptic Gregorian day number with `0001-01-01 ↦ 0` (a Monday). -/
def dayNumber (y m d : ℕ) : ℕ :=
  let py := y - 1
  365 * py + py / 4 + py / 400 - py / 100 + daysBeforeMonth (isLeap y) m + (d - 1)

/-- Absolute minute count of a timestamp. -/
def minutesOfDT (t : DT) : ℕ :=
  1440 * dayNumber t.year t.month t.day + 60 * t.hour + t.minute

/-- Time-of-day of a timestamp, in minutes (the `df.index.time`
comparison key: `datetime.time` ordering coincides with minute-of-day
ordering at minute granularity). -/
def todMin (t : DT) : ℕ := 60 * t.hour + t.minute

/-- Two decimal digits. -/
def parse2 (a b : Char) : Option ℕ :=
  match digitVal a, digitVal b with
  | some x, some y => some (10 * x + y)
  | _, _ => none

/-- `pd.to_datetime` on the two timestamp shapes produced by the bar
builders: `"YYYYMMDD"` and `"YYYYMMDD HH:MM"` (month, day, hour and
minute range-checked as `pandas` does; other shapes do not occur in these
data paths and are mapped to a parse failure). -/
def dtParseStr (s : List Char) : Option DT :=
  match s with
  | [y1, y2, y3, y4, m1, m2, d1, d2] =>
    match parse2 y1 y2, parse2 y3 y4, parse2 m1 m2, parse2 d1 d2 with
    | some hi, some lo, some mo, some dy =>
      if 1 ≤ mo ∧ mo ≤ 12 ∧ 1 ≤ dy ∧ dy ≤ 31 then
        some ⟨100 * hi + lo, mo, dy, 0, 0⟩
      else none
    | _, _, _, _ => none
  | [y1, y2, y3, y4, m1, m2, d1, d2, ' ', h1, h2, ':', n1, n2] =>
    match parse2 y1 y2, parse2 y3 y4, parse2 m1 m2, parse2 d1 d2,
          parse2 h1 h2, parse2 n1 n2 with
    | some hi, some lo, some mo, some dy, some hh, some mi =>
      if 1 ≤ mo ∧ mo ≤ 12 ∧ 1 ≤ dy ∧ dy ≤ 31 ∧ hh < 24 ∧ mi < 60 then
        some ⟨100 * hi + lo, mo, dy, hh, mi⟩
      else none
    | _, _, _, _, _, _ => none
  | _ => none

/-- One canonical OHLCV bar after timestamp conversion (`pd.to_datetime`
followed by `set_index('t')`). -/
structure Bar where
  dt : DT
  o : ℚ
  h : ℚ
  l : ℚ
  c : ℚ
  v : ℚ
deriving DecidableEq

/-- One output row of a resample: the bucket label (in absolute minutes
for intraday buckets, a synthetic bucket index for calendar buckets) and
the aggregated OHLCV values. -/
structure Row where
  key : ℕ
  o : ℚ
  h : ℚ
  l : ℚ
  c : ℚ
  v : ℚ
deriving DecidableEq

/-- The `pandas` 5/15/20/30-minute bucket of a bar: absolute minutes
floored to the period grid (the grid is aligned to midnight, which for a
period dividing 1440 equals flooring the absolute minute count). -/
def bucketKey (p : ℕ) (b : Bar) : ℕ := p * (minutesOfDT b.dt / p)

/-- `(df.index.time >= start) & (df.index.time <= end)` for a trading
window given in minutes of the day. -/
def inWindow (w : ℕ × ℕ) (b : Bar) : Bool :=
  decide (w.1 ≤ todMin b.dt ∧ todMin b.dt ≤ w.2)

/-- Insert a key into a strictly-sorted key list. -/
def insertKey (k : ℕ) : List ℕ → List ℕ
  | [] => [k]
  | a :: r =>
    if k < a then k :: a :: r
    else if k = a then a :: r
    else a :: insertKey k r

/-- Ascending deduplicated bucket keys (the buckets `pandas.resample`
actually emits with at least one observation; empty intermediate buckets
aggregate to all-`NaN` rows and are removed by the `.dropna()` the
sources apply, so they are not materialized here). -/
def sortedKeys (ks : List ℕ) : List ℕ := ks.foldr insertKey []

/-- OHLCV aggregation of one bucket:
`{'o': 'first', 'h': 'max', 'l': 'min', 'c': 'last', 'v': 'sum'}`. -/
def aggBucket (k : ℕ) (g : List Bar) : Row :=
  { key := k
  , o := ((g.map Bar.o).head?).getD 0
  , h := ((g.map Bar.h).max?).getD 0
  , l := ((g.map Bar.l).min?).getD 0
  , c := ((g.map Bar.c).getLast?).getD 0
  , v := (g.map Bar.v).sum }

/-- `group.resample(...).agg(...)` for an arbitrary bucket-key function
(minute grid, day, Monday-anchored week, month or year). -/
def resampleBy (keyf : Bar → ℕ) (g : List Bar) : List Row :=
  (sortedKeys (g.map keyf)).map (fun k => aggBucket k (g.filter (fun b => keyf b = k)))

/-- The series restricted to one trading window (`df[mask]`). -/
def windowSlice (w : ℕ × ℕ) (bars : List Bar) : List Bar :=
  bars.filter (inWindow w)

/-- The per-window intraday resample: filter to each trading window,
resample that subset on the minute grid, and concatenate the per-window
results in window order (`pd.concat`). -/
def intradayConcat (ws : List (ℕ × ℕ)) (p : ℕ) (bars : List Bar) : List Row :=
  (ws.map (fun w => resampleBy (bucketKey p) (windowSlice w bars))).flatten

/-- Insert a row into a key-sorted row list (stable). -/
def insertRow (r : Row) : List Row → List Row
  | [] => [r]
  | a :: t => if r.key < a.key then r :: a :: t else a :: insertRow r t

/-- `result.sort_index()`. -/
def sortRowsByKey (rs : List Row) : List Row := rs.foldr insertRow []

/-- Insert a bar into a timestamp-sorted bar list (stable). -/
def insertBar (b : Bar) : List Bar → List Bar
  | [] => [b]
  | a :: t => if minutesOfDT b.dt < minutesOfDT a.dt then b :: a :: t else a :: insertBar b t

/-- `df.sort_index()` on the timestamp index. -/
def sortBarsByT (bs : List Bar) : List Bar := bs.foldr insertBar []

/-- Bucket index of a Monday-anchored week (`'w-mon'`): days Tuesday
through the following Monday share one bucket. -/
def weekKeyMon (b : Bar) : ℕ := (dayNumber b.dt.year b.dt.month b.dt.day + 6) / 7

/-- Bucket index of a calendar month (`'m'`). -/
def monthKey (b : Bar) : ℕ := 12 * b.dt.year + (b.dt.month - 1)

/-- Bucket index of a calendar year (`'y'`). -/
def yearKey (b : Bar) : ℕ := b.dt.year

/-- Bucket index of a calendar day (`'d'`). -/
def dayKey (b : Bar) : ℕ := dayNumber b.dt.year b.dt.month b.dt.day


/-- One bar in the builders' output shape: timestamp string `t` plus
OHLCV floats (the dictionaries built by `process_stock_data_last`). -/
structure TBar where
  t : List Char
  o : ℚ
  h : ℚ
  l : ℚ
  c : ℚ
  v : ℚ
deriving DecidableEq

/-- One bar in the all-history builders' output shape: the `v` field is
carried over as the raw volume token (the sources do not convert it). -/
structure ABar where
  t : List Char
  o : ℚ
  h : ℚ
  l : ℚ
  c : ℚ
  v : List Char
deriving DecidableEq

/-- The `data[stock_code]` payload of the latest/intraday feed: a `date`
string and the semicolon-delimited `data` string of minute records. -/
structure LastPayload where
  date : List Char
  data : List Char
deriving DecidableEq

/-- The all-history payload: comma-joined `dates`, the `sortYear`
year/count pairs, the comma-joined `price` tokens and the comma-joined
`volumn` tokens. -/
structure AllPayload where
  dates : List Char
  sortYear : List (ℕ × ℕ)
  price : List Char
  volumn : List Char
deriving DecidableEq

/-- One decoded price group of the all-history feed: open/close/high are
base plus the respective delta, low is the base. -/
structure PriceG where
  o : ℚ
  c : ℚ
  h : ℚ
  l : ℚ
deriving DecidableEq

/-- `f'{g[:2]}:{g[-2:]}'` — first two and last two characters of the time
token joined with a colon. -/
def fmtTimeHM (timeStr : List Char) : List Char :=
  timeStr.take 2 ++ ':' :: (timeStr.reverse.take 2).reverse

/-- A cell of the caller-visible `'t'` column: either still the original
string or the `pd.to_datetime` result after an in-place conversion. -/
inductive TCell where
  | str (s : List Char) : TCell
  | dts (t : DT) : TCell
deriving DecidableEq

/-- A row of the caller's DataFrame handed to the resamplers. -/
structure StrRow where
  t : TCell
  o : ℚ
  h : ℚ
  l : ℚ
  c : ℚ
  v : ℚ
deriving DecidableEq

/-- `pd.to_datetime` on one `'t'` cell (idempotent on already-converted
cells). -/
def cellParse : TCell → Option DT
  | .str s => dtParseStr s
  | .dts t => some t

/-- `pd.to_datetime(df['t'])` followed by `set_index('t')`: all cells must
convert, else the conversion raises. -/
def convertFrame : List StrRow → Option (List Bar)
  | [] => some []
  | r :: rs =>
    match cellParse r.t, convertFrame rs with
    | some t, some bs => some (⟨t, r.o, r.h, r.l, r.c, r.v⟩ :: bs)
    | _, _ => none

/-- The caller's frame after a successful in-place
`df['t'] = pd.to_datetime(df['t'])`. -/
def framesConverted (bs : List Bar) : List StrRow :=
  bs.map (fun b => ⟨.dts b.dt, b.o, b.h, b.l, b.c, b.v⟩)

/-- The minute count of an intraday period token. -/
def periodMinutes (p : List Char) : ℕ :=
  if p = ("5".toList) then 5
  else if p = ("15".toList) then 15
  else if p = ("20".toList) then 20
  else 30

/-- The intraday period tokens. -/
def intradayKeys : List (List Char) :=
  [("5".toList), ("15".toList), ("20".toList), ("30".toList)]

/-- `str.lower()`. -/
def pyLower (s : List Char) : List Char := s.map Char.toLower

namespace Thx

/-- `thx.py:extract_json_from_js`: slice between the first `(` and the
last `)`, raise `ValueError` when `start_idx >= end_idx`, otherwise hand
the interior to `json.loads`; a `JSONDecodeError` is caught and turned
into a printed message plus `return None`. -/
def extract_json_from_js (parseJson : List Char → Option Json) (js : List Char) :
    Except PyErr (Option Json) :=
  let start_idx : ℤ := pyFind '(' js + 1
  let end_idx : ℤ := pyRFind ')' js
  if end_idx ≤ start_idx then .error .valueError
  else .ok (parseJson (pySlice js start_idx end_idx))

/-- The date list of `thx.py:process_stock_data_all`: walk `sortYear` in
order, consume `count` date fragments per `(year, count)` pair, and
prefix each fragment with the year. -/
def buildDates (parts : List (List Char)) (idx : ℕ) :
    List (ℕ × ℕ) → List (List Char)
  | [] => []
  | (y, cnt) :: rest =>
    ((parts.drop idx).take cnt).map (fun part => (Nat.repr y).toList ++ part)
      ++ buildDates parts (idx + cnt) rest

/-- The price groups of `thx.py:process_stock_data_all`: four tokens per
group (`base, Δopen, Δhigh, Δclose`), each divided by the hard-coded
factor 1000; a group of fewer than four tokens and an unparsable token
both raise `ValueError` (uncaught in this module). -/
def buildPrices : List (List Char) → Except PyErr (List PriceG)
  | [] => .ok []
  | v0 :: v1 :: v2 :: v3 :: rest =>
    match parseFloat v0, parseFloat v1, parseFloat v2, parseFloat v3 with
    | some b, some d1, some d2, some d3 =>
      match buildPrices rest with
      | .ok ps =>
        let base := b / 1000
        .ok (⟨base + d1 / 1000, base + d3 / 1000, base + d2 / 1000, base⟩ :: ps)
      | .error e => .error e
    | _, _, _, _ => .error .valueError
  | _ => .error .valueError

/-- `thx.py:process_stock_data_all`: build dates from `sortYear`, decode
the price groups, split the volumes, reverse the three lists, truncate to
the common minimum length, merge, and reverse the merged list back. -/
def process_stock_data_all (data : AllPayload) : Except PyErr (List ABar) :=
  let dates := buildDates (splitOnChar ',' data.dates) 0 data.sortYear
  match buildPrices (splitOnChar ',' data.price) with
  | .error e => .error e
  | .ok prices =>
    let volumes := splitOnChar ',' data.volumn
    let rd := dates.reverse
    let rp := prices.reverse
    let rv := volumes.reverse
    let m := min rp.length (min rd.length rv.length)
    let merged := (List.range m).map (fun i =>
      let pg := rp.getD i ⟨0, 0, 0, 0⟩
      (⟨rd.getD i [], pg.o, pg.h, pg.l, pg.c, rv.getD i []⟩ : ABar))
    .ok merged.reverse

/-- One minute record of `thx.py:process_stock_data_last`: the timestamp
is `date + ' ' + g0[:2] + ':' + g0[-2:]`, `o`/`c` read `float(group[1])`,
`h`/`l` read `float(group[3])`, `v` reads `float(group[2])`; missing
indices raise `IndexError` and unparsable tokens raise `ValueError`, both
uncaught in this module. -/
def processLastGroup (date : List Char) (group : List (List Char)) :
    Except PyErr TBar :=
  let t := date ++ ' ' :: fmtTimeHM (group.headD [])
  match group.get? 1 with
  | none => .error .indexError
  | some s1 =>
    match parseFloat s1 with
    | none => .error .valueError
    | some oc =>
      match group.get? 3 with
      | none => .error .indexError
      | some s3 =>
        match parseFloat s3 with
        | none => .error .valueError
        | some hl =>
          match group.get? 2 with
          | none => .error .indexError
          | some s2 =>
            match parseFloat s2 with
            | none => .error .valueError
            | some vv => .ok ⟨t, oc, hl, hl, oc, vv⟩

/-- The group loop of `thx.py:process_stock_data_last`. -/
def processLastGroups (date : List Char) : List (List Char) → Except PyErr (List TBar)
  | [] => .ok []
  | gstr :: rest =>
    match processLastGroup date (splitOnChar ',' gstr) with
    | .error e => .error e
    | .ok bar =>
      match processLastGroups date rest with
      | .error e => .error e
      | .ok bars => .ok (bar :: bars)

/-- `thx.py:process_stock_data_last`: split the `data` string on `;` and
decode every group; any malformed group aborts with an exception. -/
def process_stock_data_last (data : LastPayload) : Except PyErr (List TBar) :=
  processLastGroups data.date (splitOnChar ';' data.data)

/-- `time(int(s[:2]), int(s[2:]))`: both slices must parse as integers
and pass the `datetime.time` range checks, else `ValueError`. -/
def parseTimeTok (s : List Char) : Except PyErr (ℕ × ℕ) :=
  match parseNat (s.take 2), parseNat (s.drop 2) with
  | some hh, some mm =>
    if hh < 24 ∧ mm < 60 then .ok (hh, mm) else .error .valueError
  | _, _ => .error .valueError

/-- The segment loop of `thx.py:parse_trading_hours`: each segment must
split on `-` into exactly two `HHMM` tokens, else the unpacking or the
`int`/`time` conversion raises (uncaught in this module). -/
def parseWindows : List (List Char) → Except PyErr (List (ℕ × ℕ))
  | [] => .ok []
  | seg :: rest =>
    match splitOnChar '-' seg with
    | [a, b] =>
      match parseTimeTok a, parseTimeTok b with
      | .ok (h1, m1), .ok (h2, m2) =>
        match parseWindows rest with
        | .ok ws => .ok ((60 * h1 + m1, 60 * h2 + m2) :: ws)
        | .error e => .error e
      | _, _ => .error .valueError
    | _ => .error .valueError

/-- `thx.py:parse_trading_hours`: split the trading-hours string on `,`
and convert every `HHMM-HHMM` segment to a window in minutes of day. -/
def parse_trading_hours (trading_hours : List Char) : Except PyErr (List (ℕ × ℕ)) :=
  parseWindows (splitOnChar ',' trading_hours)

/-- The per-window concatenation followed by `dropna().sort_index()` of
`thx.py:resample_with_trading_hours`. -/
def intradayResample (ws : List (ℕ × ℕ)) (p : ℕ) (bars : List Bar) : List Row :=
  sortRowsByKey (intradayConcat ws p bars)

/-- The period-dispatch core of `thx.py:resample_with_trading_hours`,
acting on the series after timestamp conversion: validate the period
token, require a non-empty trading-hours string for intraday periods,
then resample per trading window (intraday) or on the calendar grid
(`'w-mon'`/`'m'`/`'y'`). -/
def resampleCore (bars : List Bar) (period trading_periods : List Char) :
    Except PyErr (List Row) :=
  let p := pyLower period
  if ¬ (p ∈ intradayKeys ∨ p = ("w".toList) ∨ p = ("m".toList) ∨ p = ("y".toList)) then
    .error .valueError
  else if p ∈ intradayKeys then
    if trading_periods = [] then .error .valueError
    else
      match parse_trading_hours trading_periods with
      | .error e => .error e
      | .ok ws => .ok (intradayResample ws (periodMinutes p) bars)
  else if p = ("w".toList) then .ok (sortRowsByKey (resampleBy weekKeyMon bars))
  else if p = ("m".toList) then .ok (sortRowsByKey (resampleBy monthKey bars))
  else .ok (sortRowsByKey (resampleBy yearKey bars))

/-- `thx.py:resample_with_trading_hours` with the caller's frame state
made explicit: the function assigns `df['t'] = pd.to_datetime(df['t'])`
on its argument before re-binding `df`, so on successful conversion the
caller's `'t'` column is left converted in place; the second component is
the caller-visible frame after the call. -/
def resampleState (fr : List StrRow) (period trading_periods : List Char) :
    Except PyErr (List Row) × List StrRow :=
  match convertFrame fr with
  | none => (.error .valueError, fr)
  | some bars => (resampleCore bars period trading_periods, framesConverted bars)

end Thx

namespace SrcThx

/-- `src/thx.py:extract_json_from_js`: returns `None` for an empty
payload, for a missing wrapper (`start_idx <= 0 or end_idx <= start_idx`)
and for a JSON parse failure — every failure path is caught and logged,
nothing is raised. -/
def extract_json_from_js (parseJson : List Char → Option Json) (js : List Char) :
    Option Json :=
  if js = [] then none
  else
    let start_idx : ℤ := pyFind '(' js + 1
    let end_idx : ℤ := pyRFind ')' js
    if start_idx ≤ 0 ∨ end_idx ≤ start_idx then none
    else parseJson (pySlice js start_idx end_idx)

/-- One minute record of `src/thx.py:process_stock_data_last`: groups of
fewer than four comma fields are skipped; the time token is stripped and
formatted `HH:MM` when at least four characters long; `o`/`c` read
`float(group[1])`, `h`/`l` read `float(group[3])`, `v` reads
`float(group[2])`; a per-record `ValueError`/`IndexError` is caught,
logged and the record skipped. -/
def processLastRecord (date : List Char) (gstr : List Char) : Option TBar :=
  if pyStrip gstr = [] then none
  else
    let group := splitOnChar ',' gstr
    if group.length < 4 then none
    else
      let time_str := pyStrip (group.headD [])
      let formatted := if 4 ≤ time_str.length then fmtTimeHM time_str else time_str
      let t := date ++ ' ' :: formatted
      match parseFloat (group.getD 1 []), parseFloat (group.getD 3 []),
            parseFloat (group.getD 2 []) with
      | some oc, some hl, some vv => some ⟨t, oc, hl, hl, oc, vv⟩
      | _, _, _ => none

/-- `src/thx.py:process_stock_data_last`: split on `;`, skip blank and
malformed groups, keep every decodable record. -/
def process_stock_data_last (data : LastPayload) : List TBar :=
  (splitOnChar ';' data.data).filterMap (processLastRecord data.date)

/-- One segment of `src/thx.py:parse_trading_hours`: stripped, split on
`-` into exactly two 4-character tokens; any malformed segment is
logged and skipped rather than raising. -/
def parseHoursSegment (seg : List Char) : Option (ℕ × ℕ) :=
  match splitOnChar '-' (pyStrip seg) with
  | [a, b] =>
    if a.length = 4 ∧ b.length = 4 then
      match parseNat (a.take 2), parseNat (a.drop 2),
            parseNat (b.take 2), parseNat (b.drop 2) with
      | some h1, some m1, some h2, some m2 =>
        if h1 < 24 ∧ m1 < 60 ∧ h2 < 24 ∧ m2 < 60 then
          some (60 * h1 + m1, 60 * h2 + m2)
        else none
      | _, _, _, _ => none
    else none
  | _ => none

/-- `src/thx.py:parse_trading_hours`: empty string gives an empty
calendar; each segment is parsed leniently (skip on failure). -/
def parse_trading_hours (trading_hours : List Char) : List (ℕ × ℕ) :=
  if trading_hours = [] then []
  else (splitOnChar ',' trading_hours).filterMap parseHoursSegment

/-- The period tokens accepted by `src/thx.py` (`PERIOD_MAP`). -/
def periodKeys : List (List Char) :=
  intradayKeys ++ [("d".toList), ("w".toList), ("m".toList), ("y".toList)]

/-- The `try:`-block of `src/thx.py:resample_with_trading_hours`: every
exception inside it — timestamp conversion failure, missing trading
hours, empty parsed calendar — is caught, logged and turned into an
empty result frame.  On success: sort by timestamp, then either the
per-window intraday resample (`result.dropna()`, no final sort) or the
calendar resample. -/
def tryBody (fr : List StrRow) (p trading_periods : List Char) : List Row :=
  match convertFrame fr with
  | none => []
  | some bars0 =>
    let bars := sortBarsByT bars0
    if p ∈ intradayKeys then
      if trading_periods = [] then []
      else
        let ws := parse_trading_hours trading_periods
        if ws = [] then []
        else intradayConcat ws (periodMinutes p) bars
    else if p = ("d".toList) then resampleBy dayKey bars
    else if p = ("w".toList) then resampleBy weekKeyMon bars
    else if p = ("m".toList) then resampleBy monthKey bars
    else resampleBy yearKey bars

/-- `src/thx.py:resample_with_trading_hours` with the caller's frame
state made explicit: an empty frame returns an empty frame before any
validation; an invalid period raises; everything else happens inside a
`try:` on `df_copy = df.copy()`, so the caller's frame is never
modified. -/
def resampleState (fr : List StrRow) (period trading_periods : List Char) :
    Except PyErr (List Row) × List StrRow :=
  if fr = [] then (.ok [], fr)
  else
    let p := pyLower period
    if ¬ p ∈ periodKeys then (.error .valueError, fr)
    else (.ok (tryBody fr p trading_periods), fr)

/-- The result component of `src/thx.py:resample_with_trading_hours`. -/
def resample_with_trading_hours (fr : List StrRow) (period trading_periods : List Char) :
    Except PyErr (List Row) :=
  (resampleState fr period trading_periods).1

end SrcThx

namespace ThxHelper

/-- One minute record of `src/thx_helper.py:process_stock_data_last`
(identical in `src/thx/thx_helper.py`): groups of fewer than four comma
fields are skipped; `o`/`h`/`l`/`c` all read `float(group[1])` but `v`
reads `float(group[4])` — the fifth field — so a record must have at
least five fields to survive the caught `IndexError`.  Per-record
exceptions are caught, logged and the record skipped. -/
def processLastRecord (date : List Char) (gstr : List Char) : Option TBar :=
  if pyStrip gstr = [] then none
  else
    let group := splitOnChar ',' gstr
    if group.length < 4 then none
    else
      let time_str := pyStrip (group.headD [])
      let formatted := if 4 ≤ time_str.length then fmtTimeHM time_str else time_str
      let t := date ++ ' ' :: formatted
      match parseFloat (group.getD 1 []) with
      | none => none
      | some px =>
        match group.get? 4 with
        | none => none
        | some s4 =>
          match parseFloat s4 with
          | none => none
          | some vv => some ⟨t, px, px, px, px, vv⟩

/-- `src/thx_helper.py:process_stock_data_last`. -/
def process_stock_data_last (data : LastPayload) : List TBar :=
  (splitOnChar ';' data.data).filterMap (processLastRecord data.date)

end ThxHelper

namespace Indicators

/-- `pd.Series(xs).rolling(window=n).mean().round(2)` on an all-defined
series: `NaN` for the first `n - 1` positions, the rounded trailing mean
afterwards. -/
def rollMean (n : ℕ) (xs : List ℚ) : List (Option ℚ) :=
  (List.range xs.length).map (fun i =>
    if i + 1 < n then none
    else some (round2 ((((xs.drop (i + 1 - n)).take n).sum) / (n : ℚ))))

/-- `indicators.py:calculate_ma`. -/
def calculate_ma (prices : List ℚ) (period : ℕ) : List (Option ℚ) :=
  rollMean period prices

/-- `pd.Series(xs).ewm(span, adjust=False).mean()` after the first
element: `y = α·x + (1-α)·prev`. -/
def emaAux (α : ℚ) (prev : ℚ) : List ℚ → List ℚ
  | [] => []
  | x :: xs =>
    let y := α * x + (1 - α) * prev
    y :: emaAux α y xs

/-- `pd.Series(xs).ewm(span, adjust=False).mean()` with `α = 2/(span+1)`:
seeded with the first value, then the recursive smoothing. -/
def ewm (α : ℚ) : List ℚ → List ℚ
  | [] => []
  | x :: xs => x :: emaAux α x xs

/-- `indicators.py:calculate_macd` (fast 12, slow 26, signal 9): the two
rounded EMAs, their difference, the rounded EMA of the difference, and
the rounded histogram. -/
def calculate_macd (prices : List ℚ) : List ℚ × List ℚ × List ℚ :=
  let ema_fast := (ewm (2 / (12 + 1)) prices).map round2
  let ema_slow := (ewm (2 / (26 + 1)) prices).map round2
  let macd := ema_fast.zipWith (· - ·) ema_slow
  let signal := (ewm (2 / (9 + 1)) macd).map round2
  let histogram := (macd.zipWith (· - ·) signal).map round2
  (macd, signal, histogram)

/-- `delta.where(delta > 0, 0)` for `delta = prices.diff()`: the leading
`NaN` difference compares false and is replaced by `0`. -/
def gains (prices : List ℚ) : List ℚ :=
  (List.range prices.length).map (fun i =>
    if i = 0 then 0
    else
      let d := prices.getD i 0 - prices.getD (i - 1) 0
      if 0 < d then d else 0)

/-- `(-delta.where(delta < 0, 0))` for `delta = prices.diff()`. -/
def losses (prices : List ℚ) : List ℚ :=
  (List.range prices.length).map (fun i =>
    if i = 0 then 0
    else
      let d := prices.getD i 0 - prices.getD (i - 1) 0
      if d < 0 then -d else 0)

/-- The rolled gain average of `indicators.py:calculate_rsi`. -/
def gainRoll (prices : List ℚ) : List (Option ℚ) := rollMean 14 (gains prices)

/-- The rolled loss average of `indicators.py:calculate_rsi`. -/
def lossRoll (prices : List ℚ) : List (Option ℚ) := rollMean 14 (losses prices)

/-- `Series.replace(to_replace=0, method='ffill')`: each exact zero is
replaced by the nearest preceding non-zero entry (which may be `NaN`);
`carry` holds that entry once one exists. -/
def replaceZeroFfillGo (carry : Option (Option ℚ)) :
    List (Option ℚ) → List (Option ℚ)
  | [] => []
  | x :: xs =>
    let y := if x = some 0 then carry.getD x else x
    let c := if x = some 0 then carry else some x
    y :: replaceZeroFfillGo c xs

/-- `Series.replace(to_replace=0, method='ffill')` from an empty
history. -/
def replaceZeroFfill (l : List (Option ℚ)) : List (Option ℚ) :=
  replaceZeroFfillGo none l

/-- `indicators.py:calculate_rsi` (window 14): `rs` is the rolled gain
average over the zero-replaced rolled loss average, and
`RSI = (100 - 100/(1+rs)).round(2)`; `NaN` propagates through every
step. -/
def calculate_rsi (prices : List ℚ) : List (Option ℚ) :=
  (gainRoll prices).zipWith (fun g? l? =>
    match g?, l? with
    | some g, some lv => some (round2 (100 - 100 / (1 + g / lv)))
    | _, _ => none) (replaceZeroFfill (lossRoll prices))

/-- The RSV series of `indicators.py:calculate_kdj` (window 9): zero
before the window is full (the `pd.Series(0.0)` initialisation), then
the stochastic value, defined as `100` when the 9-bar range is zero. -/
def kdjRsv (high low close : List ℚ) (i : ℕ) : ℚ :=
  if i + 1 < 9 then 0
  else
    let pl := (((low.drop (i - 8)).take 9).min?).getD 0
    let ph := (((high.drop (i - 8)).take 9).max?).getD 0
    if ph ≠ pl then (close.getD i 0 - pl) / (ph - pl) * 100 else 100

/-- The K recursion of `indicators.py:calculate_kdj`: seeded at 50,
`K[i] = (2/3·K[i-1] + 1/3·RSV[i]).round(2)`. -/
def kdjK (high low close : List ℚ) : ℕ → ℚ
  | 0 => 50
  | i + 1 => round2 (2/3 * kdjK high low close i + 1/3 * kdjRsv high low close (i + 1))

/-- The D recursion of `indicators.py:calculate_kdj`: seeded at 50,
`D[i] = (2/3·D[i-1] + 1/3·K[i]).round(2)`. -/
def kdjD (high low close : List ℚ) : ℕ → ℚ
  | 0 => 50
  | i + 1 => round2 (2/3 * kdjD high low close i + 1/3 * kdjK high low close (i + 1))

/-- The J series of `indicators.py:calculate_kdj`: seeded at 50, then
`J[i] = (3·K[i] - 2·D[i]).round(2)`. -/
def kdjJ (high low close : List ℚ) (i : ℕ) : ℚ :=
  if i = 0 then 50
  else round2 (3 * kdjK high low close i - 2 * kdjD high low close i)

/-- `indicators.py:calculate_kdj`: the K, D and J float series (no value
in them is ever `NaN`; the recursions start from the seeds). -/
def calculate_kdj (high low close : List ℚ) :
    List ℚ × List ℚ × List ℚ :=
  ((List.range close.length).map (kdjK high low close),
   (List.range close.length).map (kdjD high low close),
   (List.range close.length).map (kdjJ high low close))

/-- The enriched frame produced by
`indicators.py:add_technical_indicators`: the input bars plus the
indicator columns, each modelled as a `NaN`-aware series.  The Bollinger
columns are not modelled: they involve a square root (sample standard
deviation), no claim under study concerns them, and they influence no
other column. -/
structure Enriched where
  bars : List TBar
  MA5 : List (Option ℚ)
  MA10 : List (Option ℚ)
  MA20 : List (Option ℚ)
  MACD : List (Option ℚ)
  MACD_SIGNAL : List (Option ℚ)
  MACD_HIST : List (Option ℚ)
  RSI : List (Option ℚ)
  K : List (Option ℚ)
  D : List (Option ℚ)
  J : List (Option ℚ)

/-- `indicators.py:add_technical_indicators` with the default
`price_col='c'` used by every call site under study: compute each
indicator family over the close prices (KDJ also reads the high/low
columns) and append the columns.  The float-valued MACD and KDJ series
enter the frame as `NaN`-free columns. -/
def add_technical_indicators (data : List TBar) : Enriched :=
  let prices := data.map TBar.c
  let m := calculate_macd prices
  let kdj := calculate_kdj (data.map TBar.h) (data.map TBar.l) prices
  { bars := data
  , MA5 := calculate_ma prices 5
  , MA10 := calculate_ma prices 10
  , MA20 := calculate_ma prices 20
  , MACD := m.1.map some
  , MACD_SIGNAL := m.2.1.map some
  , MACD_HIST := m.2.2.map some
  , RSI := calculate_rsi prices
  , K := kdj.1.map some
  , D := kdj.2.1.map some
  , J := kdj.2.2.map some }

/-- `indicators.py:add_technical_indicators` with the caller's list state
made explicit: the function builds `df = pd.DataFrame(data)` (a fresh
frame holding copies of the scalar values), writes only to `df`, and
returns `df.to_dict('records')`; no statement assigns into `data`, so the
caller's list is returned unchanged as the second component. -/
def add_technical_indicators_state (data : List TBar) : Enriched × List TBar :=
  (add_technical_indicators data, data)

end Indicators

/-- The spec's malformed-record example payload for the latest/intraday
decoder: a well-formed group, a malformed group, a well-formed group. -/
def lastMalformedPayload : LastPayload :=
  ⟨("20230101".toList), ("0930,10.0,100,10.0;BAD;0931,10.2,150,10.15".toList)⟩

/-- A five-field minute record (`time, price, volume, average, extra`). -/
def lastFiveFieldPayload : LastPayload :=
  ⟨("20230101".toList), ("0930,10.0,100,10.05,999".toList)⟩

/-- The spec's all-history example payload, with the `price` string
exactly as the spec writes it (a `;` between the two groups). -/
def allPayloadSpecLiteral : AllPayload :=
  ⟨("0101,0102".toList), [(2023, 2)],
   ("100000,1000,2000,500;101000,500,1500,300".toList), ("1000,1100".toList)⟩

/-- The spec's all-history example payload with the `price` tokens
comma-separated throughout, as the decoder actually consumes them. -/
def allPayloadCommaSep : AllPayload :=
  ⟨("0101,0102".toList), [(2023, 2)],
   ("100000,1000,2000,500,101000,500,1500,300".toList), ("1000,1100".toList)⟩

/-- The comma-separated all-history payload with only one volume token,
exercising the common-minimum-length truncation. -/
def allPayloadShortVol : AllPayload :=
  ⟨("0101,0102".toList), [(2023, 2)],
   ("100000,1000,2000,500,101000,500,1500,300".toList), ("1000".toList)⟩

/-- Fourteen bars with strictly increasing closes (no losses in any
14-bar window). -/
def risingBars14 : List TBar :=
  (List.range 14).map (fun i => ⟨[], (i : ℚ) + 1, (i : ℚ) + 1, (i : ℚ) + 1, (i : ℚ) + 1, 10⟩)

/-- A two-bar series for witness instantiations. -/
def twoBars : List TBar :=
  [⟨[], 1, 2, 1/2, 3/2, 10⟩, ⟨[], 2, 3, 1, 5/2, 20⟩]

/-- A bar at 11:28 — inside the morning window of the calendar
`[(09:30, 11:30), (13:00, 15:00)]`. -/
def barMorning1128 : Bar := ⟨⟨2023, 1, 2, 11, 28⟩, 1, 2, 1/2, 3/2, 10⟩

/-- A bar at 13:02 — inside the afternoon window of the same calendar. -/
def barAfternoon1302 : Bar := ⟨⟨2023, 1, 2, 13, 2⟩, 3, 4, 5/2, 7/2, 20⟩

/-- A one-row caller frame whose `'t'` column still holds a string. -/
def strFrame1 : List StrRow := [⟨.str ("20230101 09:31".toList), 1, 2, 1/2, 3/2, 10⟩]

/-- The value `Series.replace(0, method='ffill')` substitutes at a zero
position: the last entry of the prefix that is not an exact zero, the
carried history `c` when the prefix keeps nothing, and the zero itself
when there is no history at all. -/
def lastKeptD (c : Option (Option ℚ)) (xs : List (Option ℚ)) : Option ℚ :=
  match (xs.filter (fun x => decide (x ≠ some 0))).getLast? with
  | some v => v
  | none => c.getD (some 0)

example : splitOnChar ',' ("a,,bc".toList) = [['a'], [], ['b', 'c']] := by decide
example : parseFloat ("10.15".toList) = some (203/20 : ℚ) := by with_unfolding_all rfl
example : parseFloat ("BAD".toList) = none := by with_unfolding_all rfl
example : parseFloat ("500;101000".toList) = none := by with_unfolding_all rfl
example : parseFloat ("-3.5".toList) = some (-7/2 : ℚ) := by with_unfolding_all rfl
example : parseFloat (" 100 ".toList) = some 100 := by with_unfolding_all rfl
example : roundHalfEven (5/2) = 2 := by with_unfolding_all rfl
example : roundHalfEven (7/2) = 4 := by with_unfolding_all rfl
example : round2 (101/3) = 3367/100 := by with_unfolding_all rfl
example : dayNumber 1 1 1 = 0 := by decide
example : dayNumber 1 1 8 - dayNumber 1 1 1 = 7 := by decide
example : dtParseStr ("20230101 09:31".toList) = some ⟨2023, 1, 1, 9, 31⟩ := by decide
example : dtParseStr ("20230101".toList) = some ⟨2023, 1, 1, 0, 0⟩ := by decide
example : dtParseStr ("2023-01-01".toList) = none := by decide
example : pyFind '(' ("x)".toList) = -1 := by decide
example : pyRFind ')' ("x)".toList) = 1 := by decide

theorem mem_insertRow {r' r : Row} {l : List Row} :
    r' ∈ insertRow r l ↔ r' = r ∨ r' ∈ l := by
  induction l with
  | nil => simp [insertRow]
  | cons a t ih =>
    simp only [insertRow]
    split
    · simp
    · simp [ih]
      tauto

theorem mem_sortRowsByKey {r : Row} {l : List Row} :
    r ∈ sortRowsByKey l ↔ r ∈ l := by
  induction l with
  | nil => simp [sortRowsByKey]
  | cons a t ih =>
    simp only [sortRowsByKey, List.foldr_cons] at *
    rw [mem_insertRow, ih]
    simp

theorem mem_resampleBy {r : Row} {keyf : Bar → ℕ} {g : List Bar} :
    r ∈ resampleBy keyf g →
    ∃ k, r = aggBucket k (g.filter (fun b => keyf b = k)) := by
  intro hr
  simp only [resampleBy, List.mem_map] at hr
  obtain ⟨k, -, hk⟩ := hr
  exact ⟨k, hk.symm⟩

/-- C1.  For every intraday resample with a trading calendar, every output
row of the per-window pipeline is the aggregate of bars drawn from a
single trading window (so no bucket mixes observations across windows);
and on the concrete calendar `[(09:30, 11:30), (13:00, 15:00)]`, bars at
11:28 and 13:02 resampled at 5 minutes land in two distinct output rows,
one per window. -/
theorem resample_respects_trading_windows :
    (∀ (ws : List (ℕ × ℕ)) (p : ℕ) (bars : List Bar) (r : Row),
      r ∈ Thx.intradayResample ws p bars →
      ∃ w ∈ ws, ∃ k,
        r = aggBucket k ((windowSlice w bars).filter (fun b => bucketKey p b = k))
        ∧ ∀ b ∈ (windowSlice w bars).filter (fun b => bucketKey p b = k),
            inWindow w b = true)
    ∧ Thx.resampleCore [barMorning1128, barAfternoon1302] ("5".toList)
        ("0930-1130,1300-1500".toList)
      = .ok [⟨bucketKey 5 barMorning1128, 1, 2, 1/2, 3/2, 10⟩,
             ⟨bucketKey 5 barAfternoon1302, 3, 4, 5/2, 7/2, 20⟩]
    ∧ bucketKey 5 barMorning1128 ≠ bucketKey 5 barAfternoon1302 := by
  refine ⟨?_, by with_unfolding_all rfl, by with_unfolding_all decide⟩
  intro ws p bars r hr
  rw [Thx.intradayResample, mem_sortRowsByKey] at hr
  simp only [intradayConcat, List.mem_flatten, List.mem_map] at hr
  obtain ⟨l, ⟨w, hw, hl⟩, hrl⟩ := hr
  subst hl
  obtain ⟨k, hk⟩ := mem_resampleBy hrl
  refine ⟨w, hw, k, hk, ?_⟩
  intro b hb
  have hb' : b ∈ windowSlice w bars := (List.mem_filter.mp hb).1
  exact (List.mem_filter.mp hb').2

/-- The first conjunct of `resample_respects_trading_windows`
instantiated on the concrete two-window example: the first output row is
the aggregate of the bars of a single window. -/
theorem resample_respects_trading_windows_witness :
    ∃ w ∈ [((570 : ℕ), (690 : ℕ)), (780, 900)], ∃ k,
      (⟨bucketKey 5 barMorning1128, 1, 2, 1/2, 3/2, 10⟩ : Row)
        = aggBucket k ((windowSlice w [barMorning1128, barAfternoon1302]).filter
            (fun b => bucketKey 5 b = k))
      ∧ ∀ b ∈ (windowSlice w [barMorning1128, barAfternoon1302]).filter
            (fun b => bucketKey 5 b = k),
          inWindow w b = true := by
  have heval : Thx.intradayResample [(570, 690), (780, 900)] 5
      [barMorning1128, barAfternoon1302]
      = [⟨bucketKey 5 barMorning1128, 1, 2, 1/2, 3/2, 10⟩,
         ⟨bucketKey 5 barAfternoon1302, 3, 4, 5/2, 7/2, 20⟩] := by
    with_unfolding_all rfl
  refine resample_respects_trading_windows.1 [(570, 690), (780, 900)] 5
    [barMorning1128, barAfternoon1302]
    ⟨bucketKey 5 barMorning1128, 1, 2, 1/2, 3/2, 10⟩ ?_
  rw [heval]
  exact List.mem_cons_self _ _

/-- C2.  The latest/intraday decoders evaluated on the spec's
malformed-record example
`"0930,10.0,100,10.0;BAD;0931,10.2,150,10.15"`: the helper decoder on the
`thx_tool` application path (`src/thx_helper.py`) yields zero bars — its
`len(group) < 4` guard admits the two well-formed 4-field groups but the
subsequent `float(group[4])` volume read raises a caught `IndexError`
that skips them; the legacy decoder (`thx.py`) raises an uncaught
`IndexError` on the `BAD` group; only the hardened decoder
(`src/thx.py`) produces the two bars the spec promises. -/
theorem process_last_malformed_group_eval :
    ThxHelper.process_stock_data_last lastMalformedPayload = []
    ∧ Thx.process_stock_data_last lastMalformedPayload = .error .indexError
    ∧ SrcThx.process_stock_data_last lastMalformedPayload
      = [⟨("20230101 09:30".toList), 10, 10, 10, 10, 100⟩,
         ⟨("20230101 09:31".toList), 51/5, 203/20, 203/20, 51/5, 150⟩] :=
  ⟨by with_unfolding_all rfl, by with_unfolding_all rfl, by with_unfolding_all rfl⟩

/-- C3 (counterexample).  On the spec's literal example input — whose
`price` string separates the two groups with a `;` — the all-history
builder raises `ValueError` (the code splits `price` on `,` only, so the
token `"500;101000"` fails `float`) instead of producing the two bars
the claim states. -/
theorem process_all_literal_spec_input_fails :
    Thx.process_stock_data_all allPayloadSpecLiteral = .error .valueError := by
  with_unfolding_all rfl

/-- C3 (amended).  With the `price` tokens comma-separated throughout
(the separator the decoder actually consumes), the all-history builder
reconstructs the year-qualified dates from `sortYear`, combines each
4-token group as `o = base+Δo, h = base+Δh, c = base+Δc, l = base`
divided by 1000, and produces exactly the two bars of the spec's example
(volume carried as the raw token); with only one volume token the three
parallel lists are truncated to their common minimum length and a single
bar is produced. -/
theorem process_all_comma_separated_bars :
    Thx.process_stock_data_all allPayloadCommaSep
      = .ok [⟨("20230101".toList), 101, 102, 100, 201/2, ("1000".toList)⟩,
             ⟨("20230102".toList), 203/2, 205/2, 101, 1013/10, ("1100".toList)⟩]
    ∧ Thx.process_stock_data_all allPayloadShortVol
      = .ok [⟨("20230102".toList), 203/2, 205/2, 101, 1013/10, ("1000".toList)⟩] :=
  ⟨by with_unfolding_all rfl, by with_unfolding_all rfl⟩

/-- C5.  A well-formed five-field minute record
`"0930,10.0,100,10.05,999"` with price 10.0, volume 100 and average
10.05: the helper decoder (`src/thx_helper.py`, the `thx_tool` path)
builds the point-in-time bar with `o = h = l = c = 10` and the claimed
`date + " " + HH:MM` timestamp, but takes the volume from the fifth
comma field (999) instead of the volume field (100); the hardened
decoder (`src/thx.py`) takes the volume from the volume field but sets
`h = l` to the average-price field (10.05) rather than the price.  No
decoder satisfies the claim's `o = h = l = c = price ∧ v = volume`. -/
theorem process_last_point_quote_eval :
    ThxHelper.process_stock_data_last lastFiveFieldPayload
      = [⟨("20230101 09:30".toList), 10, 10, 10, 10, 999⟩]
    ∧ SrcThx.process_stock_data_last lastFiveFieldPayload
      = [⟨("20230101 09:30".toList), 10, 201/20, 201/20, 10, 100⟩] :=
  ⟨by with_unfolding_all rfl, by with_unfolding_all rfl⟩

/-- C6.  The hardened resampler returns an empty frame for an empty
input frame before any other validation, for every period token and
every trading-hours string — no exception escapes. -/
theorem resample_empty_input_returns_empty :
    ∀ (period trading_periods : List Char),
      SrcThx.resample_with_trading_hours [] period trading_periods = .ok [] := by
  intro period trading_periods
  with_unfolding_all rfl

/-- C10 (counterexample).  The legacy resampler mutates its caller's
frame: `df['t'] = pd.to_datetime(df['t'])` is an in-place column
assignment on the argument, so after the call the caller's `'t'` column
holds datetimes instead of the original strings. -/
theorem legacy_resample_mutates_caller_frame :
    (Thx.resampleState strFrame1 ("5".toList) ("0930-1130".toList)).2 ≠ strFrame1 := by
  with_unfolding_all decide

/-- C10 (amended).  The hardened resampler and the indicator enrichment
are non-mutating — the former works on `df.copy()`, the latter builds a
fresh frame from the caller's list — while the legacy resampler converts
the caller's `'t'` column to datetime in place. -/
theorem mutation_profile_of_core_ops :
    (∀ (fr : List StrRow) (period trading_periods : List Char),
      (SrcThx.resampleState fr period trading_periods).2 = fr)
    ∧ (∀ data : List TBar, (Indicators.add_technical_indicators_state data).2 = data)
    ∧ (Thx.resampleState strFrame1 ("5".toList) ("0930-1130".toList)).2
      = [⟨.dts ⟨2023, 1, 1, 9, 31⟩, 1, 2, 1/2, 3/2, 10⟩] := by
  refine ⟨?_, fun _ => rfl, by with_unfolding_all rfl⟩
  intro fr period trading_periods
  simp only [SrcThx.resampleState]
  split
  · rfl
  · split <;> rfl

/-- C7.  On the legacy resampler, requesting an intraday period for a
non-empty series with a missing trading-hours string, or with a
trading-hours string its parser rejects, raises `ValueError` (the
`ConfigurationError` of the spec's taxonomy) to the caller; no result
frame is produced. -/
theorem intraday_resample_missing_calendar_raises
    (bars : List Bar) (period trading_periods : List Char)
    (_hb : bars ≠ []) (hp : period ∈ intradayKeys)
    (htp : trading_periods = []
           ∨ Thx.parse_trading_hours trading_periods = .error .valueError) :
    Thx.resampleCore bars period trading_periods = .error .valueError := by
  have hlow : pyLower period = period := by
    simp only [intradayKeys, List.mem_cons, List.not_mem_nil, or_false] at hp
    rcases hp with rfl | rfl | rfl | rfl <;> decide
  simp only [Thx.resampleCore, hlow]
  rw [if_neg (by simp [hp]), if_pos hp]
  rcases htp with rfl | hparse
  · rfl
  · split
    · rfl
    · rw [hparse]

/-- `intraday_resample_missing_calendar_raises` instantiated on a
one-bar series, the 5-minute period and an empty trading-hours
string. -/
theorem intraday_resample_missing_calendar_raises_witness :
    Thx.resampleCore [barMorning1128] ("5".toList) [] = .error .valueError :=
  intraday_resample_missing_calendar_raises [barMorning1128] ("5".toList) []
    (by simp) (by decide) (Or.inl rfl)

theorem mem_of_firstIdx_some {c : Char} {s : List Char} {k : ℕ}
    (h : firstIdx c s = some k) : c ∈ s := by
  induction s generalizing k with
  | nil => simp [firstIdx] at h
  | cons x xs ih =>
    simp only [firstIdx] at h
    by_cases hx : x = c
    · simp [hx]
    · simp only [hx, if_false] at h
      cases hge : firstIdx c xs with
      | none => simp [hge] at h
      | some k' => exact List.mem_cons_of_mem _ (ih hge)

theorem mem_of_lastIdx_some {c : Char} {s : List Char} {k : ℕ}
    (h : lastIdx c s = some k) : c ∈ s := by
  induction s generalizing k with
  | nil => simp [lastIdx] at h
  | cons x xs ih =>
    simp only [lastIdx] at h
    cases hge : lastIdx c xs with
    | some k' => exact List.mem_cons_of_mem _ (ih hge)
    | none =>
      rw [hge] at h
      by_cases hx : x = c
      · simp [hx]
      · simp [hx] at h

theorem lastIdx_eq_none_iff {c : Char} {s : List Char} :
    lastIdx c s = none ↔ c ∉ s := by
  induction s with
  | nil => simp [lastIdx]
  | cons x xs ih =>
    simp only [lastIdx]
    cases h : lastIdx c xs with
    | some k =>
      have : c ∈ x :: xs := List.mem_cons_of_mem _ (mem_of_lastIdx_some h)
      simp [this]
    | none =>
      have hxs : c ∉ xs := ih.mp h
      by_cases hx : x = c
      · simp [hx]
      · simp only [if_neg hx, true_iff, List.mem_cons, not_or]
        exact ⟨fun h' => hx h'.symm, hxs⟩

theorem firstIdx_exists_le {c : Char} {s : List Char} {i : ℕ}
    (hi : i < s.length) (hc : s.get ⟨i, hi⟩ = c) :
    ∃ k, firstIdx c s = some k ∧ k ≤ i := by
  induction s generalizing i with
  | nil => simp at hi
  | cons x xs ih =>
    cases i with
    | zero =>
      simp only [List.get] at hc
      exact ⟨0, by simp [firstIdx, hc], Nat.le_refl 0⟩
    | succ j =>
      by_cases hx : x = c
      · exact ⟨0, by simp [firstIdx, hx], Nat.zero_le _⟩
      · have hj : j < xs.length := Nat.lt_of_succ_lt_succ hi
        obtain ⟨k, hk, hki⟩ := ih hj hc
        exact ⟨k + 1, by simp [firstIdx, hx, hk], Nat.succ_le_succ hki⟩

theorem lastIdx_exists_ge {c : Char} {s : List Char} {i : ℕ}
    (hi : i < s.length) (hc : s.get ⟨i, hi⟩ = c) :
    ∃ k, lastIdx c s = some k ∧ i ≤ k := by
  induction s generalizing i with
  | nil => simp at hi
  | cons x xs ih =>
    cases i with
    | zero =>
      cases h : lastIdx c xs with
      | some k => exact ⟨k + 1, by simp [lastIdx, h], Nat.zero_le _⟩
      | none =>
        simp only [List.get] at hc
        exact ⟨0, by simp [lastIdx, h, hc], Nat.le_refl 0⟩
    | succ j =>
      have hj : j < xs.length := Nat.lt_of_succ_lt_succ hi
      obtain ⟨k, hk, hik⟩ := ih hj hc
      exact ⟨k + 1, by simp [lastIdx, hk], Nat.succ_le_succ hik⟩

/-- C8 (counterexample).  The decoder does not fail on every payload
without a parenthesis pair: `"x)"` contains no `(` at all, yet
`find('(') + 1 = 0 < 1 = rfind(')')` sends it down the success path, and
since the sliced interior `"x"` is not valid JSON (the JSON argument
rejecting it plays the role of `json.loads`), the caught
`JSONDecodeError` makes the function return `None` — not raise.  For the
same reason an invalid interior with a well-formed wrapper
(`"f(bad)"`) also returns `None` instead of propagating an error. -/
theorem extract_json_missing_paren_no_error :
    ('(') ∉ ("x)".toList)
    ∧ Thx.extract_json_from_js (fun _ => none) ("x)".toList) = .ok none
    ∧ Thx.extract_json_from_js (fun _ => none) ("f(bad)".toList) = .ok none :=
  ⟨by decide, by with_unfolding_all rfl, by with_unfolding_all rfl⟩

/-- C8 (amended).  The legacy decoder slices between the character after
the first `(` and the last `)` and hands the interior to the JSON
parser, whatever the wrapper identifier: (a) whenever some `(` is
followed, at distance at least two, by some `)`, it returns `ok` of the
parser's result — `None` rather than an exception when the interior is
not valid JSON; (b) it raises `ValueError` when the payload contains no
`)`; (c) but a payload with no `(` and a `)` at a positive position
still takes the success path, so "no parenthesis pair implies an error"
fails in that direction. -/
theorem extract_json_slice_behavior (parseJson : List Char → Option Json)
    (js : List Char) :
    (∀ i j (hi : i < js.length) (hj : j < js.length), i + 1 < j →
        js.get ⟨i, hi⟩ = '(' → js.get ⟨j, hj⟩ = ')' →
        ∃ s, Thx.extract_json_from_js parseJson js = .ok (parseJson s))
    ∧ ((')') ∉ js →
        Thx.extract_json_from_js parseJson js = .error .valueError)
    ∧ (∀ j (hj : j < js.length), ('(') ∉ js → 1 ≤ j →
        js.get ⟨j, hj⟩ = ')' →
        ∃ s, Thx.extract_json_from_js parseJson js = .ok (parseJson s)) := by
  refine ⟨?_, ?_, ?_⟩
  · intro i j hi hj hij hoi hcj
    obtain ⟨f, hf, hfi⟩ := firstIdx_exists_le hi hoi
    obtain ⟨l, hl, hjl⟩ := lastIdx_exists_ge hj hcj
    refine ⟨pySlice js ((f : ℤ) + 1) (l : ℤ), ?_⟩
    simp only [Thx.extract_json_from_js, pyFind, pyRFind, hf, hl]
    rw [if_neg (by push_cast; omega)]
  · intro hnot
    have hl : lastIdx ')' js = none := lastIdx_eq_none_iff.mpr hnot
    simp only [Thx.extract_json_from_js, pyFind, pyRFind, hl]
    cases hfi : firstIdx '(' js with
    | some k => rw [if_pos (by push_cast; omega)]
    | none => rw [if_pos (by decide)]
  · intro j hj hnot hj1 hcj
    have hfi : firstIdx '(' js = none := by
      cases hfe : firstIdx '(' js with
      | none => rfl
      | some k => exact absurd (mem_of_firstIdx_some hfe) hnot
    obtain ⟨l, hl, hjl⟩ := lastIdx_exists_ge hj hcj
    refine ⟨pySlice js 0 (l : ℤ), ?_⟩
    simp only [Thx.extract_json_from_js, pyFind, pyRFind, hfi, hl]
    rw [if_neg (by push_cast; omega)]
    norm_num

/-- `extract_json_slice_behavior` instantiated on `"x)"` with a JSON
argument rejecting the interior: the decoder returns `ok None` despite
the absent `(`. -/
theorem extract_json_slice_behavior_witness :
    ∃ s, Thx.extract_json_from_js (fun _ => none) ("x)".toList)
      = .ok ((fun _ => none : List Char → Option Json) s) :=
  (extract_json_slice_behavior (fun _ => none) ("x)".toList)).2.2 1
    (by decide) (by decide) (by decide) (by decide)

theorem emaAux_getD_succ (α prev : ℚ) (xs : List ℚ) (i : ℕ)
    (h : i + 1 < xs.length) :
    (Indicators.emaAux α prev xs).getD (i + 1) 0
      = α * xs.getD (i + 1) 0 + (1 - α) * (Indicators.emaAux α prev xs).getD i 0 := by
  induction xs generalizing prev i with
  | nil => simp at h
  | cons x t ih =>
    cases i with
    | zero =>
      cases t with
      | nil => simp at h
      | cons z t' => simp [Indicators.emaAux]
    | succ j =>
      have hj : j + 1 < t.length := by simpa using h
      simpa [Indicators.emaAux] using ih (α * x + (1 - α) * prev) j hj

theorem ewm_getD_succ (α : ℚ) (xs : List ℚ) (i : ℕ) (h : i + 1 < xs.length) :
    (Indicators.ewm α xs).getD (i + 1) 0
      = α * xs.getD (i + 1) 0 + (1 - α) * (Indicators.ewm α xs).getD i 0 := by
  cases xs with
  | nil => simp at h
  | cons x t =>
    cases i with
    | zero =>
      cases t with
      | nil => simp at h
      | cons z t' => simp [Indicators.ewm, Indicators.emaAux]
    | succ j =>
      have hj : j + 1 < t.length := by simpa using h
      simpa [Indicators.ewm] using emaAux_getD_succ α x t j hj

theorem emaAux_length (α prev : ℚ) (xs : List ℚ) :
    (Indicators.emaAux α prev xs).length = xs.length := by
  induction xs generalizing prev with
  | nil => rfl
  | cons x t ih => simp [Indicators.emaAux, ih]

theorem ewm_length (α : ℚ) (xs : List ℚ) :
    (Indicators.ewm α xs).length = xs.length := by
  cases xs with
  | nil => rfl
  | cons x t => simp [Indicators.ewm, emaAux_length]

/-- C9.  The MACD components are built from exponential moving averages
obeying `EMA[0] = price[0]` and
`EMA[i] = α·price[i] + (1-α)·EMA[i-1]` — `pandas`
`ewm(span, adjust=False)` with `α = 2/(span+1)` — and the three columns
are assembled exactly as
`round2(EMA_12) - round2(EMA_26)`, `round2(EMA_9(macd))` and
`round2(macd - signal)`, with every entry of the MACD-family columns
defined from the very first bar. -/
theorem macd_ema_recurrence (prices : List ℚ) (hne : prices ≠ []) :
    ((Indicators.ewm (2 / (12 + 1)) prices).getD 0 0 = prices.getD 0 0
      ∧ ∀ (α : ℚ), (Indicators.ewm α prices).getD 0 0 = prices.getD 0 0)
    ∧ (∀ (α : ℚ) (i : ℕ), i + 1 < prices.length →
        (Indicators.ewm α prices).getD (i + 1) 0
          = α * prices.getD (i + 1) 0
            + (1 - α) * (Indicators.ewm α prices).getD i 0)
    ∧ (Indicators.calculate_macd prices).1
      = ((Indicators.ewm (2 / (12 + 1)) prices).map round2).zipWith (· - ·)
          ((Indicators.ewm (2 / (26 + 1)) prices).map round2)
    ∧ (Indicators.calculate_macd prices).2.1
      = (Indicators.ewm (2 / (9 + 1)) ((Indicators.calculate_macd prices).1)).map round2
    ∧ (Indicators.calculate_macd prices).2.2
      = (((Indicators.calculate_macd prices).1).zipWith (· - ·)
          ((Indicators.calculate_macd prices).2.1)).map round2
    ∧ (Indicators.calculate_macd prices).1.length = prices.length
    ∧ (∀ data : List TBar, ∀ x ∈ (Indicators.add_technical_indicators data).MACD,
        x.isSome = true) := by
  obtain ⟨p, t, rfl⟩ : ∃ p t, prices = p :: t := by
    cases prices with
    | nil => exact absurd rfl hne
    | cons p t => exact ⟨p, t, rfl⟩
  refine ⟨⟨rfl, fun α => rfl⟩, fun α i h => ewm_getD_succ α _ i h, rfl, rfl, rfl, ?_, ?_⟩
  · simp [Indicators.calculate_macd, ewm_length]
  · intro data x hx
    simp only [Indicators.add_technical_indicators, List.mem_map] at hx
    obtain ⟨y, -, rfl⟩ := hx
    rfl

/-- `macd_ema_recurrence` instantiated on the two-price series `[1, 2]`
with the fast-period smoothing factor `2/13` at index 1. -/
theorem macd_ema_recurrence_witness :
    (Indicators.ewm (2 / 13) [(1 : ℚ), 2]).getD 1 0
      = 2 / 13 * (([(1 : ℚ), 2]).getD 1 0)
        + (1 - 2 / 13) * (Indicators.ewm (2 / 13) [(1 : ℚ), 2]).getD 0 0 :=
  (macd_ema_recurrence [1, 2] (by simp)).2.1 (2 / 13) 0 (by simp)

theorem rollMean_length (n : ℕ) (xs : List ℚ) :
    (Indicators.rollMean n xs).length = xs.length := by
  simp [Indicators.rollMean]

theorem rollMean_get (n : ℕ) (xs : List ℚ) (i : ℕ)
    (h : i < (Indicators.rollMean n xs).length) :
    (Indicators.rollMean n xs).get ⟨i, h⟩
      = if i + 1 < n then none
        else some (round2 ((((xs.drop (i + 1 - n)).take n).sum) / (n : ℚ))) := by
  simp [Indicators.rollMean]

theorem rollMean_getD_of_lt (n : ℕ) (xs : List ℚ) (i : ℕ) (hi : i < xs.length) :
    (Indicators.rollMean n xs).getD i none
      = if i + 1 < n then none
        else some (round2 ((((xs.drop (i + 1 - n)).take n).sum) / (n : ℚ))) := by
  have h : i < (Indicators.rollMean n xs).length := by rw [rollMean_length]; exact hi
  rw [List.getD_eq_getElem _ _ h]
  simp [Indicators.rollMean]

theorem replaceZeroFfillGo_length (c : Option (Option ℚ)) (l : List (Option ℚ)) :
    (Indicators.replaceZeroFfillGo c l).length = l.length := by
  induction l generalizing c with
  | nil => rfl
  | cons x xs ih => simp [Indicators.replaceZeroFfillGo, ih]

theorem lastKeptD_cons (c : Option (Option ℚ)) (x : Option ℚ) (ys : List (Option ℚ)) :
    lastKeptD c (x :: ys) = lastKeptD (if x = some 0 then c else some x) ys := by
  by_cases hx : x = some 0
  · simp [lastKeptD, hx]
  · simp only [lastKeptD, hx, if_false, List.filter_cons, decide_eq_true_eq]
    rw [if_pos hx, List.getLast?_cons]
    cases hys : (ys.filter (fun y => decide (y ≠ some 0))).getLast? with
    | some v => simp [hys]
    | none => simp [hys]

theorem replaceZeroFfillGo_get (c : Option (Option ℚ)) (l : List (Option ℚ))
    (i : ℕ) (h : i < l.length)
    (h' : i < (Indicators.replaceZeroFfillGo c l).length) :
    (Indicators.replaceZeroFfillGo c l).get ⟨i, h'⟩
      = if l.get ⟨i, h⟩ = some 0 then lastKeptD c (l.take i) else l.get ⟨i, h⟩ := by
  induction l generalizing c i with
  | nil => simp at h
  | cons x xs ih =>
    cases i with
    | zero =>
      by_cases hx : x = some 0 <;>
        simp [Indicators.replaceZeroFfillGo, hx, lastKeptD]
    | succ j =>
      have hj : j < xs.length := Nat.lt_of_succ_lt_succ h
      have hj' : j < (Indicators.replaceZeroFfillGo
          (if x = some 0 then c else some x) xs).length := by
        rw [replaceZeroFfillGo_length]; exact hj
      have := ih (if x = some 0 then c else some x) j hj hj'
      simp only [Indicators.replaceZeroFfillGo, List.get_cons_succ]
      rw [this, List.take_succ_cons, lastKeptD_cons]

theorem range_filter_lt_eq {i k : ℕ} (h : k ≤ i) :
    (List.range i).filter (fun j => decide (j < k)) = List.range k := by
  conv_lhs => rw [show i = k + (i - k) by omega, List.range_add k (i - k)]
  rw [List.filter_append]
  have h1 : (List.range k).filter (fun j => decide (j < k)) = List.range k :=
    List.filter_eq_self.mpr (fun a ha => by simpa using List.mem_range.mp ha)
  have h2 : ((List.range (i - k)).map (k + ·)).filter (fun j => decide (j < k)) = [] := by
    rw [List.filter_eq_nil_iff]
    intro a ha
    simp only [List.mem_map, List.mem_range] at ha
    obtain ⟨b, -, rfl⟩ := ha
    simp
  rw [h1, h2, List.append_nil]

theorem gains_length (p : List ℚ) : (Indicators.gains p).length = p.length := by
  simp [Indicators.gains]

theorem losses_length (p : List ℚ) : (Indicators.losses p).length = p.length := by
  simp [Indicators.losses]

theorem lossRoll_getD_none_of_lt (p : List ℚ) (j : ℕ) (hj : j < 13)
    (hjl : j < p.length) :
    (Indicators.lossRoll p).getD j none = none := by
  rw [Indicators.lossRoll, rollMean_getD_of_lt _ _ _ (by rw [losses_length]; exact hjl)]
  rw [if_pos (by omega)]

theorem gainRoll_getD_some (p : List ℚ) (i : ℕ) (h13 : 13 ≤ i) (hi : i < p.length) :
    ∃ g, (Indicators.gainRoll p).getD i none = some g := by
  rw [Indicators.gainRoll, rollMean_getD_of_lt _ _ _ (by rw [gains_length]; exact hi)]
  rw [if_neg (by omega)]
  exact ⟨_, rfl⟩

theorem lossRoll_getD_some (p : List ℚ) (i : ℕ) (h13 : 13 ≤ i) (hi : i < p.length) :
    ∃ g, (Indicators.lossRoll p).getD i none = some g := by
  rw [Indicators.lossRoll, rollMean_getD_of_lt _ _ _ (by rw [losses_length]; exact hi)]
  rw [if_neg (by omega)]
  exact ⟨_, rfl⟩

theorem lastKeptD_lossRoll_take (p : List ℚ) (i : ℕ) (hi : i ≤ p.length) (h13 : 13 ≤ i)
    (hz : ∀ j, 13 ≤ j → j < i → (Indicators.lossRoll p).getD j none = some 0) :
    lastKeptD none ((Indicators.lossRoll p).take i) = none := by
  have hrm : Indicators.lossRoll p
      = (List.range (Indicators.losses p).length).map (fun j =>
          if j + 1 < 14 then none
          else some (round2 (((((Indicators.losses p).drop (j + 1 - 14)).take 14).sum)
            / ((14 : ℕ) : ℚ)))) := rfl
  have hlen : (Indicators.losses p).length = p.length := losses_length p
  rw [lastKeptD, hrm, ← List.map_take, List.take_range, hlen, Nat.min_eq_left hi]
  rw [List.filter_map]
  have hcongr : (List.range i).filter
      ((fun x => decide (x ≠ some 0)) ∘ (fun j =>
          if j + 1 < 14 then none
          else some (round2 (((((Indicators.losses p).drop (j + 1 - 14)).take 14).sum)
            / ((14 : ℕ) : ℚ)))))
      = (List.range i).filter (fun j => decide (j < 13)) := by
    apply List.filter_congr
    intro a ha
    have hai : a < i := List.mem_range.mp ha
    by_cases h13a : a < 13
    · simp [Function.comp, if_pos (by omega : a + 1 < 14), h13a]
    · have hsz := hz a (by omega) hai
      simp only [Indicators.lossRoll] at hsz
      rw [rollMean_getD_of_lt _ _ _ (by rw [losses_length]; omega),
          if_neg (by omega : ¬ a + 1 < 14)] at hsz
      have hval := Option.some.inj hsz
      simp only [Function.comp_apply]
      rw [if_neg (by omega : ¬ a + 1 < 14), hval]
      simp [h13a]
  rw [hcongr, range_filter_lt_eq (by omega : 13 ≤ i)]
  rw [show (13 : ℕ) = 12 + 1 from rfl, List.range_succ, List.map_append]
  simp only [List.map_cons, List.map_nil]
  rw [List.getLast?_concat]
  simp

/-- C4 (counterexample).  On fourteen strictly rising closes the RSI
column is `NaN` on every row — including row 13, the `(N-1)`-th row that
the claim asserts to be the first non-null one: the rolling loss average
is zero there, and `replace(0, method='ffill')` can only carry the
`NaN`s of the leading window, so `rs` and the RSI stay undefined. -/
theorem rsi_null_at_window_boundary_row :
    risingBars14.length = 14
    ∧ (Indicators.add_technical_indicators risingBars14).RSI
      = List.replicate 14 none := by
  constructor
  · with_unfolding_all rfl
  · with_unfolding_all rfl

theorem gainRoll_getD_none_of_lt (p : List ℚ) (j : ℕ) (hj : j < 13)
    (hjl : j < p.length) :
    (Indicators.gainRoll p).getD j none = none := by
  rw [Indicators.gainRoll, rollMean_getD_of_lt _ _ _ (by rw [gains_length]; exact hjl)]
  rw [if_pos (by omega)]

theorem calculate_rsi_length (p : List ℚ) :
    (Indicators.calculate_rsi p).length = p.length := by
  simp [Indicators.calculate_rsi, List.length_zipWith, Indicators.gainRoll,
    Indicators.replaceZeroFfill, replaceZeroFfillGo_length, Indicators.lossRoll,
    rollMean_length, gains_length, losses_length]

theorem replaceZeroFfill_getD (l : List (Option ℚ)) (i : ℕ) (hi : i < l.length) :
    (Indicators.replaceZeroFfill l).getD i none
      = if l.getD i none = some 0 then lastKeptD none (l.take i) else l.getD i none := by
  have h' : i < (Indicators.replaceZeroFfill l).length := by
    rw [Indicators.replaceZeroFfill, replaceZeroFfillGo_length]; exact hi
  rw [List.getD_eq_getElem _ _ h', List.getD_eq_getElem _ _ hi]
  exact replaceZeroFfillGo_get none l i hi h'

theorem calculate_rsi_get (p : List ℚ) (i : ℕ)
    (h : i < (Indicators.calculate_rsi p).length) :
    (Indicators.calculate_rsi p).get ⟨i, h⟩
      = match (Indicators.gainRoll p).getD i none,
              (Indicators.replaceZeroFfill (Indicators.lossRoll p)).getD i none with
        | some g, some lv => some (round2 (100 - 100 / (1 + g / lv)))
        | _, _ => none := by
  have hi : i < p.length := by rw [← calculate_rsi_length p]; exact h
  have h1 : i < (Indicators.gainRoll p).length := by
    rw [Indicators.gainRoll, rollMean_length, gains_length]; exact hi
  have h2 : i < (Indicators.replaceZeroFfill (Indicators.lossRoll p)).length := by
    rw [Indicators.replaceZeroFfill, replaceZeroFfillGo_length, Indicators.lossRoll,
      rollMean_length, losses_length]
    exact hi
  rw [List.get_eq_getElem]
  simp only [Indicators.calculate_rsi]
  rw [List.getElem_zipWith]
  rw [List.getD_eq_getElem _ _ h1, List.getD_eq_getElem _ _ h2]

theorem rollMean_get_eq_none_iff (n : ℕ) (xs : List ℚ) (i : ℕ)
    (h : i < (Indicators.rollMean n xs).length) :
    (Indicators.rollMean n xs).get ⟨i, h⟩ = none ↔ i + 1 < n := by
  rw [rollMean_get]
  split
  · simp_all
  · simp_all

/-- C4 (amended).  For every non-empty input series: the K, D and J
columns of the indicator engine are non-null on every output row, with
the recursions seeded at 50 on the first row and RSV defined as 100
whenever the 9-bar range is zero; MA5, MA10 and MA20 are null on exactly
the first N−1 rows of their window N; the RSI is null on the first 13
rows, is non-null at any later row whose 14-bar rolling loss average is
non-zero, and stays null at a row all of whose loss averages from row 13
on are exactly zero (the `diff()`-induced leading `NaN` window feeds the
zero-replacement `ffill`, so an all-gains prefix leaves RSI undefined
even after the look-back window fills). -/
theorem indicator_null_pattern (data : List TBar) (hne : data ≠ []) :
    (∀ x ∈ (Indicators.add_technical_indicators data).K, x.isSome = true)
    ∧ (∀ x ∈ (Indicators.add_technical_indicators data).D, x.isSome = true)
    ∧ (∀ x ∈ (Indicators.add_technical_indicators data).J, x.isSome = true)
    ∧ (Indicators.add_technical_indicators data).K.getD 0 none = some 50
    ∧ (Indicators.add_technical_indicators data).D.getD 0 none = some 50
    ∧ (Indicators.add_technical_indicators data).J.getD 0 none = some 50
    ∧ (Indicators.add_technical_indicators data).K.length = data.length
    ∧ (Indicators.add_technical_indicators data).RSI.length = data.length
    ∧ (∀ (high low close : List ℚ) (i : ℕ), 8 ≤ i →
        ((((high.drop (i - 8)).take 9).max?).getD 0
          = (((low.drop (i - 8)).take 9).min?).getD 0) →
        Indicators.kdjRsv high low close i = 100)
    ∧ (∀ (i : ℕ) (h : i < (Indicators.add_technical_indicators data).MA5.length),
        ((Indicators.add_technical_indicators data).MA5.get ⟨i, h⟩ = none ↔ i < 4))
    ∧ (∀ (i : ℕ) (h : i < (Indicators.add_technical_indicators data).MA10.length),
        ((Indicators.add_technical_indicators data).MA10.get ⟨i, h⟩ = none ↔ i < 9))
    ∧ (∀ (i : ℕ) (h : i < (Indicators.add_technical_indicators data).MA20.length),
        ((Indicators.add_technical_indicators data).MA20.get ⟨i, h⟩ = none ↔ i < 19))
    ∧ (∀ (i : ℕ) (h : i < (Indicators.add_technical_indicators data).RSI.length),
        i < 13 → (Indicators.add_technical_indicators data).RSI.get ⟨i, h⟩ = none)
    ∧ (∀ (i : ℕ) (h : i < (Indicators.add_technical_indicators data).RSI.length),
        13 ≤ i →
        (Indicators.lossRoll (data.map TBar.c)).getD i none ≠ some 0 →
        (((Indicators.add_technical_indicators data).RSI.get ⟨i, h⟩).isSome = true))
    ∧ (∀ (i : ℕ) (h : i < (Indicators.add_technical_indicators data).RSI.length),
        13 ≤ i →
        (∀ j, 13 ≤ j → j ≤ i →
          (Indicators.lossRoll (data.map TBar.c)).getD j none = some 0) →
        (Indicators.add_technical_indicators data).RSI.get ⟨i, h⟩ = none) := by
  obtain ⟨d, rest, rfl⟩ : ∃ d rest, data = d :: rest := by
    cases data with
    | nil => exact absurd rfl hne
    | cons d rest => exact ⟨d, rest, rfl⟩
  refine ⟨?_, ?_, ?_, ?_, ?_, ?_, ?_, ?_, ?_, ?_, ?_, ?_, ?_, ?_, ?_⟩
  · intro x hx
    simp only [Indicators.add_technical_indicators, Indicators.calculate_kdj,
      List.mem_map] at hx
    obtain ⟨y, -, rfl⟩ := hx
    rfl
  · intro x hx
    simp only [Indicators.add_technical_indicators, Indicators.calculate_kdj,
      List.mem_map] at hx
    obtain ⟨y, -, rfl⟩ := hx
    rfl
  · intro x hx
    simp only [Indicators.add_technical_indicators, Indicators.calculate_kdj,
      List.mem_map] at hx
    obtain ⟨y, -, rfl⟩ := hx
    rfl
  · simp [Indicators.add_technical_indicators, Indicators.calculate_kdj,
      List.range_succ_eq_map, Indicators.kdjK]
  · simp [Indicators.add_technical_indicators, Indicators.calculate_kdj,
      List.range_succ_eq_map, Indicators.kdjD]
  · simp [Indicators.add_technical_indicators, Indicators.calculate_kdj,
      List.range_succ_eq_map, Indicators.kdjJ]
  · simp [Indicators.add_technical_indicators, Indicators.calculate_kdj]
  · exact (calculate_rsi_length _).trans (by simp)
  · intro high low close i h8 heq
    rw [Indicators.kdjRsv, if_neg (by omega), heq]
    simp
  · intro i h
    exact (rollMean_get_eq_none_iff 5 _ i h).trans (by omega)
  · intro i h
    exact (rollMean_get_eq_none_iff 10 _ i h).trans (by omega)
  · intro i h
    exact (rollMean_get_eq_none_iff 20 _ i h).trans (by omega)
  · intro i h hi13
    have hip : i < ((d :: rest).map TBar.c).length := by
      rw [← calculate_rsi_length (((d :: rest)).map TBar.c)]
      exact h
    show (Indicators.calculate_rsi ((d :: rest).map TBar.c)).get ⟨i, h⟩ = none
    rw [calculate_rsi_get, gainRoll_getD_none_of_lt _ _ hi13 hip]
  · intro i h hi13 hnz
    have hip : i < ((d :: rest).map TBar.c).length := by
      rw [← calculate_rsi_length (((d :: rest)).map TBar.c)]
      exact h
    show ((Indicators.calculate_rsi ((d :: rest).map TBar.c)).get ⟨i, h⟩).isSome = true
    rw [calculate_rsi_get]
    obtain ⟨g, hg⟩ := gainRoll_getD_some _ i hi13 hip
    obtain ⟨lv, hlv⟩ := lossRoll_getD_some _ i hi13 hip
    rw [hg, replaceZeroFfill_getD _ _ (by
      rw [Indicators.lossRoll, rollMean_length, losses_length]; exact hip)]
    rw [if_neg hnz, hlv]
    rfl
  · intro i h hi13 hall
    have hip : i < ((d :: rest).map TBar.c).length := by
      rw [← calculate_rsi_length (((d :: rest)).map TBar.c)]
      exact h
    show (Indicators.calculate_rsi ((d :: rest).map TBar.c)).get ⟨i, h⟩ = none
    rw [calculate_rsi_get]
    obtain ⟨g, hg⟩ := gainRoll_getD_some _ i hi13 hip
    rw [hg, replaceZeroFfill_getD _ _ (by
      rw [Indicators.lossRoll, rollMean_length, losses_length]; exact hip)]
    rw [if_pos (hall i hi13 (Nat.le_refl i))]
    rw [lastKeptD_lossRoll_take _ i (Nat.le_of_lt hip) hi13
      (fun j hj13 hji => hall j hj13 (Nat.le_of_lt hji))]

/-- `indicator_null_pattern` instantiated on a concrete two-bar series:
K is defined on the first row with the seed 50, and MA5 is null on the
first row. -/
theorem indicator_null_pattern_witness :
    (Indicators.add_technical_indicators twoBars).K.getD 0 none = some 50
    ∧ ((Indicators.add_technical_indicators twoBars).MA5.get
        ⟨0, by with_unfolding_all decide⟩ = none ↔ (0 : ℕ) < 4) := by
  have h := indicator_null_pattern twoBars (by simp [twoBars])
  exact ⟨h.2.2.2.1, h.2.2.2.2.2.2.2.2.2.1 0 (by with_unfolding_all decide)⟩

/-- C6 (counterexample).  The legacy resampler has no empty-input guard:
on a zero-row frame it still validates the trading-hours string, so an
intraday resample of an empty series with a missing trading-hours string
raises `ValueError` instead of returning an empty series. -/
theorem legacy_resample_empty_intraday_raises :
    (Thx.resampleState [] ("5".toList) []).1 = .error .valueError := by
  with_unfolding_all rfl

/-- C7 (counterexample).  The hardened resampler raises its
missing-calendar error inside its own `try:` block and catches it, so a
caller requesting an intraday resample of a non-empty series with a
missing trading-hours string receives an empty frame — no typed error is
propagated. -/
theorem hardened_resample_swallows_calendar_error :
    (SrcThx.resampleState strFrame1 ("5".toList) []).1 = .ok []
    ∧ (SrcThx.resampleState strFrame1 ("5".toList) ("garbage".toList)).1 = .ok [] := by
  constructor
  · with_unfolding_all rfl
  · with_unfolding_all rfl
